import Mathlib

/-!
Shallow embedding of the SoupaWhisper dictation daemon (src/dictate.py) and
proofs about the claims of its specification.

External processes (audio capture, clipboard, typing tool, notify-send) and
the transcription model are out-of-scope collaborators; they are modelled by
their interface results, supplied in an environment record, while every
control-flow decision of the Python code is translated literally.
-/

namespace SoupaWhisper

/- ## Python string primitives used by dictate.py -/

/-- ASCII whitespace characters removed by Python str.strip(). -/
def pyIsSpace (c : Char) : Bool :=
  c == ' ' || c == '\t' || c == '\n' || c == '\r' || c == '\x0b' || c == '\x0c'

/-- Python str.strip(): drop leading and trailing whitespace. -/
def pyStrip (s : String) : String :=
  String.mk (((s.toList.dropWhile pyIsSpace).reverse.dropWhile pyIsSpace).reverse)

/-- Python sep.join(xs). -/
def pyJoin (sep : String) : List String → String
  | [] => ""
  | [x] => x
  | x :: y :: xs => x ++ sep ++ pyJoin sep (y :: xs)

/-- Python s[:n]. -/
def pyTake (s : String) (n : Nat) : String :=
  String.mk (s.toList.take n)

/-- Python truthiness of `self.model_error` (an Optional[str]): None and the
empty string are falsy. -/
def pyTruthy : Option String → Bool
  | none => false
  | some s => !(s == "")

/-- Does `pat` occur at the start of `l`? -/
def listStartsWith : List Char → List Char → Bool
  | [], _ => true
  | _ :: _, [] => false
  | p :: ps, c :: cs => (p == c) && listStartsWith ps cs

/-- Does `pat` occur as a contiguous sublist of the second argument? -/
def listHasSub (pat : List Char) : List Char → Bool
  | [] => pat.isEmpty
  | c :: rest => listStartsWith pat (c :: rest) || listHasSub pat rest

/-- Substring occurrence test (Python `pat in s`). -/
def strMentions (s pat : String) : Bool := listHasSub pat.toList s.toList

/- ## Data model of the Dictation object (src/dictate.py, class Dictation) -/

/-- The session stages named by the spec: Idle, Recording, Stopping,
Transcribing, Done. The Python code keeps only the boolean `self.recording`;
these stages are an abstraction of stretches of `start_recording` and
`stop_recording`, attached in the embedding at the corresponding code points. -/
inductive SessState where
  | Idle
  | Recording
  | Stopping
  | Transcribing
  | Done
deriving DecidableEq, Repr

/-- Process-wide configuration and backend selection, resolved once at
startup (module globals AUDIO_BACKEND, TYPING_TOOL, AUTO_TYPE, NOTIFICATIONS,
CONFIG["key"], and AUDIO_COMMAND_BUILDER presence). -/
structure Globals where
  audioBackend : String
  hotkeyName : String
  typingTool : String
  autoType : Bool
  notifications : Bool
  builderPresent : Bool
deriving DecidableEq, Repr

/-- The mutable fields of the Dictation instance that the session logic
reads and writes: `self.recording`, `self.record_process`, `self.temp_file`,
`self.model` (tracked as presence), `self.model_error`. -/
structure DictState where
  recording : Bool
  recordProcess : Option Nat
  tempFile : Option String
  modelSet : Bool
  modelError : Option String
deriving DecidableEq, Repr

/-- Result of a `model.transcribe` call: either the ordered segment texts or
the message of a raised exception. -/
inductive TranscribeResult where
  | segs (texts : List String)
  | raised (msg : String)
deriving DecidableEq, Repr

/-- Result of the typing-tool invocation: either its exit code or the
message of a raised exception. -/
inductive InjectResult where
  | exited (code : Int)
  | raised (msg : String)
deriving DecidableEq, Repr

/-- Results of the external collaborators consulted during one
`stop_recording` run: whether `record_process.wait(timeout=2)` times out,
whether the scratch file exists and its size, the result of the transcription call
(an exception message or the ordered segment texts), the result of the typing tool
(an exception message or its exit code with stderr), and the exit code of
each notify-send invocation (discarded by the code). -/
structure StopEnv where
  waitTimesOut : Bool
  fileExists : Bool
  fileSize : Nat
  transcribe : TranscribeResult
  inject : InjectResult
  injectStderr : String
  notifySendExit : Int
deriving DecidableEq, Repr

/-- Observable side effects of a session, in program order. -/
inductive Effect where
  | spawnedCapture (path : String)
  | sentSigint
  | killedProcess
  | printed (message : String)
  | notified (title message icon : String) (timeout : Nat)
  | transcribed (path : String)
  | clipboardWrite (text : String)
  | typedAttempt (tool text : String)
  | deletedFile (path : String)
deriving DecidableEq, Repr

/-- Terminal result of one `stop_recording` call. -/
inductive Outcome where
  | noop
  | modelFailed
  | notInitialized
  | fileMissing
  | fileEmpty
  | copied (text : String)
  | noSpeech
  | errored (msg : String)
deriving DecidableEq, Repr

/-- Dictation.notify (src/dictate.py lines 406-425): returns without running
notify-send when notifications are disabled; otherwise runs notify-send with
capture_output=True and discards the CompletedProcess, so the delivery exit
code `_exitCode` has no influence. -/
def notify (g : Globals) (_exitCode : Int) (title message icon : String)
    (timeout : Nat) : List Effect :=
  if g.notifications then [Effect.notified title message icon timeout] else []

/-- Dictation.start_recording (src/dictate.py lines 427-454). Returns the new
object state, the effects, and the session stages entered. `newPath` is the
fresh NamedTemporaryFile name and `newPid` the spawned capture process. -/
def start_recording (g : Globals) (st : DictState) (newPath : String)
    (newPid : Nat) (notifyExit : Int) : DictState × List Effect × List SessState :=
  if st.recording || pyTruthy st.modelError then
    (st, [], [])
  else
    let st1 : DictState := { st with recording := true, tempFile := some newPath }
    if g.builderPresent then
      ({ st1 with recordProcess := some newPid },
        [Effect.spawnedCapture newPath,
         Effect.printed ("Recording with " ++ g.audioBackend ++ "...")]
          ++ notify g notifyExit "Recording..."
              ("Release " ++ g.hotkeyName ++ " when done")
              "audio-input-microphone" 30000,
        [SessState.Recording])
    else
      (st1, [Effect.printed "ERROR: Audio command builder not found!"],
        [SessState.Recording])

/-- The body of the `try` block of Dictation.stop_recording (src/dictate.py
lines 498-623): initialization check, scratch-file validation, transcription,
joining of segment texts, clipboard write, best-effort typing (its inner
try/except at lines 543-610 is summarized by the typing-tool interface
result `env.inject`), and the no-speech branch. -/
def stopTryBody (g : Globals) (st : DictState) (env : StopEnv) :
    Outcome × List Effect :=
  match st.modelSet, st.tempFile with
  | false, _ =>
    (Outcome.notInitialized,
      [Effect.printed "Error: Model or temp file not initialized"])
  | true, none =>
    (Outcome.notInitialized,
      [Effect.printed "Error: Model or temp file not initialized"])
  | true, some path =>
    if env.fileExists = false then
      (Outcome.fileMissing,
        [Effect.printed ("Error: Temp file does not exist: " ++ path)]
          ++ notify g env.notifySendExit "Error" "Recording file not found"
              "dialog-error" 3000)
    else if env.fileSize = 0 then
      (Outcome.fileEmpty,
        [Effect.printed ("Error: Temp file is empty: " ++ path)]
          ++ notify g env.notifySendExit "Error" "Recording file is empty"
              "dialog-error" 3000)
    else
      let sizeMsg : Effect :=
        Effect.printed ("Transcribing " ++ toString env.fileSize
          ++ " bytes from " ++ path ++ "...")
      match env.transcribe with
      | TranscribeResult.raised e =>
        (Outcome.errored e,
          [sizeMsg, Effect.transcribed path, Effect.printed ("Error: " ++ e)]
            ++ notify g env.notifySendExit "Error" (pyTake e 50)
                "dialog-error" 3000)
      | TranscribeResult.segs segs =>
        let text := pyJoin " " (segs.map fun s => pyStrip s)
        if text = "" then
          (Outcome.noSpeech,
            [sizeMsg, Effect.transcribed path,
             Effect.printed "No speech detected"]
              ++ notify g env.notifySendExit "No speech detected"
                  "Try speaking louder" "dialog-warning" 2000)
        else
          let typeEffects : List Effect :=
            if g.autoType then
              match env.inject with
              | InjectResult.raised e =>
                [Effect.typedAttempt g.typingTool text,
                 Effect.printed ("Error while typing: " ++ e)]
              | InjectResult.exited rc =>
                [Effect.typedAttempt g.typingTool text]
                  ++ (if rc ≠ 0 then
                      [Effect.printed ("Typing failed with " ++ g.typingTool
                        ++ ": " ++ env.injectStderr)]
                    else [])
            else []
          (Outcome.copied text,
            [sizeMsg, Effect.transcribed path, Effect.clipboardWrite text]
              ++ typeEffects
              ++ [Effect.printed ("Copied: " ++ text)]
              ++ notify g env.notifySendExit "Copied!"
                  (pyTake text 100 ++ (if 100 < text.length then "..." else ""))
                  "emblem-ok-symbolic" 3000)

/-- Result of one `stop_recording` call: the object state on return, the
terminal outcome, the effects, whether the scratch file is still on disk
after the call, and the session stages entered (the Idle at the end marks the
return to the idle state, `recording = false`). -/
structure StopResult where
  state : DictState
  outcome : Outcome
  effects : List Effect
  fileOnDiskAfter : Bool
  visited : List SessState
deriving DecidableEq, Repr

/-- The capture-process reaping of stop_recording (src/dictate.py lines
462-482): when a record_process is held, send SIGINT, wait with a 2 second
timeout, and kill on timeout. -/
def reapEffects (recordProcess : Option Nat) (waitTimesOut : Bool) : List Effect :=
  match recordProcess with
  | some _ =>
    [Effect.sentSigint]
      ++ (if waitTimesOut then [Effect.killedProcess] else [])
  | none => []

/-- Dictation.stop_recording (src/dictate.py lines 456-631). The guard, the
capture-process reaping (SIGINT, bounded wait, kill on timeout), the wait on
`model_loaded`, the early return when `self.model_error` is truthy (note:
this return sits BEFORE the try/finally, so it does not run the cleanup),
then the try body and the finally cleanup which unlinks the temp file when
one is recorded and it exists. -/
def stop_recording (g : Globals) (st : DictState) (env : StopEnv) : StopResult :=
  if st.recording = false then
    ⟨st, Outcome.noop, [], env.fileExists, []⟩
  else
    let st1 : DictState := { st with recording := false }
    let st2 : DictState := { st1 with recordProcess := none }
    let preEffects : List Effect :=
      reapEffects st1.recordProcess env.waitTimesOut
        ++ [Effect.printed "Transcribing..."]
        ++ notify g env.notifySendExit "Transcribing..."
            "Processing your speech" "emblem-synchronizing" 30000
    if pyTruthy st2.modelError then
      ⟨st2, Outcome.modelFailed,
        preEffects
          ++ [Effect.printed "Cannot transcribe: model failed to load"]
          ++ notify g env.notifySendExit "Error" "Model failed to load"
              "dialog-error" 3000,
        env.fileExists,
        [SessState.Stopping, SessState.Transcribing, SessState.Idle]⟩
    else
      let body := stopTryBody g st2 env
      let cleanup : Bool × List Effect :=
        match st2.tempFile with
        | some p => if env.fileExists then (true, [Effect.deletedFile p]) else (false, [])
        | none => (false, [])
      ⟨st2, body.1, preEffects ++ body.2 ++ cleanup.2,
        (if cleanup.1 then false else env.fileExists),
        [SessState.Stopping, SessState.Transcribing, SessState.Done,
         SessState.Idle]⟩

/- ## Helper observations on effect lists -/

/-- Was the clipboard tool (wl-copy) invoked? -/
def wroteClipboard (effects : List Effect) : Bool :=
  effects.any fun e =>
    match e with
    | Effect.clipboardWrite _ => true
    | _ => false

/-- Was the transcription service invoked? -/
def calledTranscriber (effects : List Effect) : Bool :=
  effects.any fun e =>
    match e with
    | Effect.transcribed _ => true
    | _ => false

/-- Does any user-visible message (printed line or notification text) mention
`pat` as a substring? -/
def effectMentions (pat : String) (e : Effect) : Bool :=
  match e with
  | Effect.printed m => strMentions m pat
  | Effect.notified t m _ _ => strMentions t pat || strMentions m pat
  | _ => false

/-- Does the user-visible output of the session mention `pat` anywhere? -/
def reportsText (effects : List Effect) (pat : String) : Bool :=
  effects.any (effectMentions pat)

/- ## The spec-side description of the output text -/

/-- The output text as the sentence of the spec describes it: the text of each segment
stripped of leading/trailing whitespace, joined in order with single spaces.
Refinement-side definition, to be compared with the computation of the code in
stopTryBody. -/
def specJoinedText (segs : List String) : String :=
  pyJoin " " (segs.map fun s => pyStrip s)

/-- A string of `n` space characters. -/
def spacesStr (n : Nat) : String := String.mk (List.replicate n ' ')

/- ## Backend selection (src/dictate.py, detect_audio_backend lines 100-128) -/

/-- The keys of `backend_map`, which are also the auto-detection candidates in
their fixed priority order. -/
def backendNames : List String := ["parecord", "pw-record", "arecord"]

/-- The auto-detection loop (src/dictate.py lines 119-126): iterate the
candidates in priority order and commit to the first whose executable
resolves on PATH (`which` exiting 0, modelled by `resolves`). -/
def autoDetectBackend (resolves : String → Bool) : Option String :=
  if resolves "parecord" then some "parecord"
  else if resolves "pw-record" then some "pw-record"
  else if resolves "arecord" then some "arecord"
  else none

/-- The committed backend plus whether the fallback warning was printed. -/
structure DetectOutcome where
  backend : Option String
  warnedFallback : Bool
deriving DecidableEq, Repr

/-- detect_audio_backend (src/dictate.py lines 100-128): an override other
than "auto" is consulted only when it is a key of backend_map; a resolvable
known override is committed, an unresolvable known override prints the
warning and falls through, and any other override value falls through to
auto-detection silently. -/
def detect_audio_backend (configBackend : String) (resolves : String → Bool) :
    DetectOutcome :=
  if configBackend ≠ "auto" then
    if configBackend ∈ backendNames then
      if resolves configBackend then ⟨some configBackend, false⟩
      else ⟨autoDetectBackend resolves, true⟩
    else ⟨autoDetectBackend resolves, false⟩
  else ⟨autoDetectBackend resolves, false⟩

/- ## Sequential event delivery (src/dictate.py, run_evdev_hotkey) -/

/-- A logical hotkey event as raised by monitor_device: a key-down (with the
fresh temp path and capture pid the press would use) or a key-up (with the
environment the resulting stop_recording run would see). -/
inductive DEvent where
  | press (path : String) (pid : Nat)
  | release (env : StopEnv)

/-- One event handled to completion by monitor_device (src/dictate.py lines
654-675): a press runs start_recording when `self.recording` is false, a
release runs stop_recording when it is true. Returns the new state and the
session stages entered while handling the event. -/
def monitor_step (g : Globals) (st : DictState) : DEvent → DictState × List SessState
  | DEvent.press path pid =>
    if st.recording then (st, [])
    else
      let r := start_recording g st path pid 0
      (r.1, r.2.2)
  | DEvent.release env =>
    if st.recording then
      let r := stop_recording g st env
      (r.state, r.visited)
    else (st, [])

/-- Sequential delivery of a list of events, concatenating the stage traces. -/
def runEvents (g : Globals) : DictState → List DEvent → DictState × List SessState
  | st, [] => (st, [])
  | st, e :: es =>
    let r := monitor_step g st e
    let rest := runEvents g r.1 es
    (rest.1, r.2 ++ rest.2)

/-- The event list of a sequence of press/release pairs. -/
def pairEvents : List (String × Nat × StopEnv) → List DEvent
  | [] => []
  | (path, pid, env) :: rest =>
    DEvent.press path pid :: DEvent.release env :: pairEvents rest

/-- The stage cycle of one completed session, as named by the spec. -/
def sessionCycle : List SessState :=
  [SessState.Recording, SessState.Stopping, SessState.Transcribing,
   SessState.Done, SessState.Idle]

/-- `n` repetitions of the session cycle. -/
def cycles : Nat → List SessState
  | 0 => []
  | n + 1 => sessionCycle ++ cycles n

/- ## Concurrent event delivery (one monitor thread per keyboard device) -/

/-- Is a session stage non-Idle in the sense of the invariant stated by the spec? -/
def isNonIdleB (s : SessState) : Bool :=
  match s with
  | SessState.Recording => true
  | SessState.Stopping => true
  | SessState.Transcribing => true
  | _ => false

/-- The shared state the handlers race on: `self.recording`, the truthiness
of `self.model_error`, which session the temp_file/record_process object
fields currently refer to, and the stage of every session started so far. -/
structure Core where
  recording : Bool
  modelError : Bool
  current : Option Nat
  sessions : List SessState
deriving DecidableEq, Repr

/-- The guard of the press path (the check `if not self.recording` in monitor_device
together with `if self.recording or self.model_error` in start_recording),
one shared-state read: true means the press is dropped. -/
def pressCheckOp (c : Core) : Bool := c.recording || c.modelError

/-- The commit of the press path: set `self.recording = True`, allocate the
temp file and spawn the capture process, beginning a new session in the
Recording stage. -/
def pressCommitOp (c : Core) : Core :=
  { c with
    recording := true,
    current := some c.sessions.length,
    sessions := c.sessions ++ [SessState.Recording] }

/-- Move session `sid` (when one is given) to stage `s`. -/
def relMark (c : Core) (sid : Option Nat) (s : SessState) : Core :=
  match sid with
  | some i => { c with sessions := c.sessions.set i s }
  | none => c

/-- A release handled atomically (sequential delivery): the stop_recording
guard, then `self.recording = False` and capture reaping (Stopping), the
transcription call (Transcribing) and the terminal stage (Done), all before
the next event is looked at. -/
def releaseSeq (c : Core) : Core :=
  if c.recording then
    let sid := c.current
    relMark (relMark (relMark { c with recording := false } sid SessState.Stopping)
      sid SessState.Transcribing) sid SessState.Done
  else c

/-- A press handled atomically (sequential delivery). -/
def pressSeq (c : Core) : Core :=
  if pressCheckOp c then c else pressCommitOp c

/-- A hotkey event without its payload (the payloads do not matter for the
session-counting invariant). -/
inductive MEvent where
  | press
  | release
deriving DecidableEq, Repr

/-- Sequential delivery: each handler runs to completion before the next. -/
def runSeq : Core → List MEvent → Core
  | c, [] => c
  | c, MEvent.press :: es => runSeq (pressSeq c) es
  | c, MEvent.release :: es => runSeq (releaseSeq c) es

/-- The state of one monitor thread delivering one event: the event, a
program counter into the micro-steps of the handler, and (for a release past the
clear step) the session the handler snapshotted. -/
structure MThread where
  ev : MEvent
  pc : Nat
  sid : Option Nat
deriving DecidableEq, Repr

/-- The interleaved machine: the shared Dictation state plus the monitor
threads, one per in-flight event. -/
structure CM where
  core : Core
  threads : List MThread
deriving DecidableEq, Repr

/-- One micro-step of thread `tid`. The press handler is two steps (guard
read, then commit) and the release handler four (guard read; clear the flag,
snapshot the session and reap, entering Stopping; the transcription call,
entering Transcribing; the terminal stage Done). The GIL makes each step
atomic but allows a switch between any two of them; collapsing the multiple
several guard reads into one step only removes interleavings, so every
behaviour of this machine is a behaviour of the code. -/
def microStep (m : CM) (tid : Nat) : CM :=
  match m.threads[tid]? with
  | none => m
  | some t =>
    match t.ev, t.pc with
    | MEvent.press, 0 =>
      if pressCheckOp m.core then
        { m with threads := m.threads.set tid { t with pc := 9 } }
      else
        { m with threads := m.threads.set tid { t with pc := 1 } }
    | MEvent.press, 1 =>
      { core := pressCommitOp m.core,
        threads := m.threads.set tid { t with pc := 9 } }
    | MEvent.release, 0 =>
      if m.core.recording then
        { m with threads := m.threads.set tid { t with pc := 1 } }
      else
        { m with threads := m.threads.set tid { t with pc := 9 } }
    | MEvent.release, 1 =>
      let sid := m.core.current
      { core := relMark { m.core with recording := false } sid SessState.Stopping,
        threads := m.threads.set tid { t with pc := 2, sid := sid } }
    | MEvent.release, 2 =>
      { core := relMark m.core t.sid SessState.Transcribing,
        threads := m.threads.set tid { t with pc := 3 } }
    | MEvent.release, 3 =>
      { core := relMark m.core t.sid SessState.Done,
        threads := m.threads.set tid { t with pc := 9 } }
    | _, _ => m

/-- Run the interleaved machine under a schedule (a list of thread ids). -/
def runSched : CM → List Nat → CM
  | m, [] => m
  | m, tid :: rest => runSched (microStep m tid) rest

/-- The number of sessions in a non-Idle stage. -/
def countNonIdle (sessions : List SessState) : Nat :=
  sessions.countP fun s => isNonIdleB s

/-- The initial Dictation state: not recording, model loading in progress or
loaded, no session started. -/
def initCore : Core := ⟨false, false, none, []⟩

/-- Three in-flight events on two keyboards: a press, then a release, then a
second press delivered while the release handler is still transcribing. -/
def raceInit : CM :=
  ⟨initCore, [⟨MEvent.press, 0, none⟩, ⟨MEvent.release, 0, none⟩,
    ⟨MEvent.press, 0, none⟩]⟩

/-- The schedule: the first press completes; the release passes its guard,
clears the flag and reaches the transcription call; the second press then
passes both guards and spawns a new capture. -/
def raceSched : List Nat := [0, 0, 1, 1, 1, 2, 2]

/- ## Sample inputs used by the witnesses -/

/-- Globals as on a stock install: parecord backend, F9 hotkey, wtype
typing tool, auto-type and notifications enabled. -/
def gSample : Globals := ⟨"parecord", "F9", "wtype", true, true, true⟩

/-- A Dictation state in the middle of a recording session. -/
def stRecording : DictState := ⟨true, some 11, some "/tmp/rec.wav", true, none⟩

/-- An idle Dictation state with the model loaded. -/
def stIdle : DictState := ⟨false, none, none, true, none⟩

/-- A benign environment: capture exits in time, the scratch file holds
32000 bytes, transcription returns "hello" and "world", typing succeeds. -/
def envOk : StopEnv :=
  ⟨false, true, 32000, TranscribeResult.segs ["hello", "world"],
    InjectResult.exited 0, "", 0⟩

/-- A recording state whose model load failed while the key was held. -/
def stModelFailed : DictState := { stRecording with modelError := some "boom" }

/-- Transcription returns no segments. -/
def envNoSegs : StopEnv := { envOk with transcribe := TranscribeResult.segs [] }

/-- Transcription returns two segments that both strip to the empty string. -/
def envWs : StopEnv := { envOk with transcribe := TranscribeResult.segs ["", " "] }

/-- The scratch file disappeared before validation. -/
def envMissing : StopEnv := { envOk with fileExists := false }

/-- The scratch file exists but is zero bytes. -/
def envEmptyFile : StopEnv := { envOk with fileSize := 0 }

/-- The transcription call raises. -/
def envRaise : StopEnv :=
  { envOk with transcribe := TranscribeResult.raised "cuda crashed" }

/-- The inductive invariant of sequential delivery: when not recording every
session started so far is Done; when recording, the sessions are a Done
prefix plus one final Recording session, and `current` points at it. -/
def SeqInv (c : Core) : Prop :=
  (c.recording = false → ∀ s ∈ c.sessions, isNonIdleB s = false)
  ∧ (c.recording = true →
      ∃ pre, c.sessions = pre ++ [SessState.Recording]
        ∧ c.current = some pre.length
        ∧ ∀ s ∈ pre, isNonIdleB s = false)

/- ## C2: scratch-file cleanup -/

/-- C2 counterexample. The claim says the scratch file is deleted on every
exit path of stop_recording, including the model-load-failure path. On that
path (model_error set while the key was held) the function returns before
the try/finally, and the scratch file is still on disk when it returns. -/
theorem c2_counterexample :
    (stop_recording gSample stModelFailed envOk).outcome = Outcome.modelFailed
    ∧ (stop_recording gSample stModelFailed envOk).fileOnDiskAfter = true :=
  ⟨rfl, rfl⟩

/-- C2 (amended): on every exit path of stop_recording other than the
model-load-failure report, the scratch file allocated at recording start is
absent from the filesystem when stop_recording returns; on the
model-load-failure path the file is left exactly as it was, because the
early return precedes the try/finally cleanup. -/
theorem c2_scratch_cleanup (g : Globals) (st : DictState) (env : StopEnv)
    (p : String) (hrec : st.recording = true) (htf : st.tempFile = some p) :
    (st.modelError = none →
      (stop_recording g st env).fileOnDiskAfter = false)
    ∧ (∀ e, st.modelError = some e → e ≠ "" →
      (stop_recording g st env).fileOnDiskAfter = env.fileExists) := by
  constructor
  · intro herr
    cases hfe : env.fileExists <;>
      simp [stop_recording, pyTruthy, hrec, htf, herr, hfe]
  · intro e he hne
    simp [stop_recording, pyTruthy, hrec, he, hne]

/-- C2 witness: the amended theorem applied on the success environment and
on the model-failure state. -/
theorem c2_scratch_cleanup_witness :
    (stop_recording gSample stRecording envOk).fileOnDiskAfter = false
    ∧ (stop_recording gSample stModelFailed envOk).fileOnDiskAfter = true :=
  ⟨(c2_scratch_cleanup gSample stRecording envOk "/tmp/rec.wav" rfl rfl).1 rfl,
    ((c2_scratch_cleanup gSample stModelFailed envOk "/tmp/rec.wav" rfl
      rfl).2 "boom" rfl (by decide)).trans rfl⟩

/- ## C4: model-load-failure short circuit -/

/-- C4 counterexample. With the stored loader failure reason "boom", the
session does terminate at Transcribing without transcribing, but what it
surfaces is the fixed text "Cannot transcribe: model failed to load" and the
notification "Model failed to load": no printed line or notification of this
stop_recording run mentions the stored reason string. -/
theorem c4_counterexample :
    (stop_recording gSample stModelFailed envOk).outcome = Outcome.modelFailed
    ∧ reportsText (stop_recording gSample stModelFailed envOk).effects "boom"
        = false :=
  ⟨rfl, by decide⟩

/-- C4 (amended): if the model loader has recorded a (truthy) failure by the
time a session reaches the Transcribing stage, stop_recording terminates the
session there, never calls the transcription service, and reports a generic
"Model failed to load" error notification; the stored failure reason itself
is not part of what the session reports. -/
theorem c4_model_failure (g : Globals) (st : DictState) (env : StopEnv)
    (e : String) (hrec : st.recording = true) (he : st.modelError = some e)
    (hne : e ≠ "") :
    (stop_recording g st env).outcome = Outcome.modelFailed
    ∧ calledTranscriber (stop_recording g st env).effects = false
    ∧ (g.notifications = true →
        Effect.notified "Error" "Model failed to load" "dialog-error" 3000
          ∈ (stop_recording g st env).effects) := by
  refine ⟨?_, ?_, ?_⟩
  · simp [stop_recording, pyTruthy, hrec, he, hne]
  · cases hrp : st.recordProcess <;> cases hw : env.waitTimesOut <;>
      cases hn : g.notifications <;>
      simp [stop_recording, pyTruthy, hrec, he, hne, calledTranscriber,
        reapEffects, notify, hrp, hw, hn]
  · intro hn
    simp [stop_recording, pyTruthy, hrec, he, hne, notify, hn]

/-- C4 witness: the amended theorem applied to the failed-load state. -/
theorem c4_model_failure_witness :
    (stop_recording gSample stModelFailed envOk).outcome = Outcome.modelFailed
    ∧ calledTranscriber (stop_recording gSample stModelFailed envOk).effects
        = false
    ∧ Effect.notified "Error" "Model failed to load" "dialog-error" 3000
        ∈ (stop_recording gSample stModelFailed envOk).effects := by
  have h := c4_model_failure gSample stModelFailed envOk "boom" rfl rfl
    (by decide)
  exact ⟨h.1, h.2.1, h.2.2 rfl⟩

/- ## C7: scratch-file validation at Transcribing -/

/-- C7: at the Transcribing stage, a missing scratch file is reported as the
distinct fileMissing outcome and a zero-byte scratch file as the distinct
fileEmpty outcome (normal returns, not exceptions), and in both cases the
transcription service is never invoked. -/
theorem c7_validation (g : Globals) (st : DictState) (env : StopEnv)
    (p : String) (hrec : st.recording = true) (herr : st.modelError = none)
    (hms : st.modelSet = true) (htf : st.tempFile = some p) :
    (env.fileExists = false →
      (stop_recording g st env).outcome = Outcome.fileMissing
      ∧ calledTranscriber (stop_recording g st env).effects = false)
    ∧ (env.fileExists = true → env.fileSize = 0 →
      (stop_recording g st env).outcome = Outcome.fileEmpty
      ∧ calledTranscriber (stop_recording g st env).effects = false) := by
  constructor
  · intro hfe
    refine ⟨?_, ?_⟩
    · simp [stop_recording, stopTryBody, pyTruthy, hrec, herr, hms, htf, hfe]
    · cases hrp : st.recordProcess <;> cases hw : env.waitTimesOut <;>
        cases hn : g.notifications <;>
        simp [stop_recording, stopTryBody, pyTruthy, hrec, herr, hms, htf,
          hfe, calledTranscriber, reapEffects, notify, hrp, hw, hn]
  · intro hfe hfs
    refine ⟨?_, ?_⟩
    · simp [stop_recording, stopTryBody, pyTruthy, hrec, herr, hms, htf,
        hfe, hfs]
    · cases hrp : st.recordProcess <;> cases hw : env.waitTimesOut <;>
        cases hn : g.notifications <;>
        simp [stop_recording, stopTryBody, pyTruthy, hrec, herr, hms, htf,
          hfe, hfs, calledTranscriber, reapEffects, notify, hrp, hw, hn]

/-- C7 witness: the theorem applied to a missing file and to an empty file. -/
theorem c7_validation_witness :
    ((stop_recording gSample stRecording envMissing).outcome
        = Outcome.fileMissing
      ∧ calledTranscriber (stop_recording gSample stRecording
          envMissing).effects = false)
    ∧ ((stop_recording gSample stRecording envEmptyFile).outcome
        = Outcome.fileEmpty
      ∧ calledTranscriber (stop_recording gSample stRecording
          envEmptyFile).effects = false) :=
  ⟨(c7_validation gSample stRecording envMissing "/tmp/rec.wav" rfl rfl rfl
      rfl).1 rfl,
    (c7_validation gSample stRecording envEmptyFile "/tmp/rec.wav" rfl rfl rfl
      rfl).2 rfl rfl⟩

/- ## C6: empty transcription result -/

/-- C6: when the transcription service returns zero segments, the session
ends with the distinct noSpeech outcome (not an errored one), the clipboard
tool is never invoked, and the "No speech detected" notification is emitted
when notifications are enabled. -/
theorem c6_no_segments (g : Globals) (st : DictState) (env : StopEnv)
    (p : String) (hrec : st.recording = true) (herr : st.modelError = none)
    (hms : st.modelSet = true) (htf : st.tempFile = some p)
    (hfe : env.fileExists = true) (hfs : env.fileSize ≠ 0)
    (htr : env.transcribe = TranscribeResult.segs []) :
    (stop_recording g st env).outcome = Outcome.noSpeech
    ∧ wroteClipboard (stop_recording g st env).effects = false
    ∧ (∀ m, (stop_recording g st env).outcome ≠ Outcome.errored m)
    ∧ (g.notifications = true →
        Effect.notified "No speech detected" "Try speaking louder"
          "dialog-warning" 2000 ∈ (stop_recording g st env).effects) := by
  refine ⟨?_, ?_, ?_, ?_⟩
  · simp [stop_recording, stopTryBody, pyTruthy, pyJoin, hrec, herr, hms,
      htf, hfe, hfs, htr]
  · cases hrp : st.recordProcess <;> cases hw : env.waitTimesOut <;>
      cases hn : g.notifications <;>
      simp [stop_recording, stopTryBody, pyTruthy, pyJoin, hrec, herr, hms,
        htf, hfe, hfs, htr, wroteClipboard, reapEffects, notify, hrp, hw, hn]
  · intro m
    simp [stop_recording, stopTryBody, pyTruthy, pyJoin, hrec, herr, hms,
      htf, hfe, hfs, htr]
  · intro hn
    simp [stop_recording, stopTryBody, pyTruthy, pyJoin, hrec, herr, hms,
      htf, hfe, hfs, htr, notify, hn]

/-- C6 witness: the theorem applied to the zero-segment environment. -/
theorem c6_no_segments_witness :
    (stop_recording gSample stRecording envNoSegs).outcome = Outcome.noSpeech
    ∧ wroteClipboard (stop_recording gSample stRecording envNoSegs).effects
        = false
    ∧ Effect.notified "No speech detected" "Try speaking louder"
        "dialog-warning" 2000
        ∈ (stop_recording gSample stRecording envNoSegs).effects := by
  have h := c6_no_segments gSample stRecording envNoSegs "/tmp/rec.wav" rfl
    rfl rfl rfl rfl (by decide) rfl
  exact ⟨h.1, h.2.1, h.2.2.2 rfl⟩

/- ## Shared characterization of the transcription outcome -/

/-- On a valid session (recording, model loaded, scratch file present and
non-empty) whose transcription returns segments `segs`, the outcome is
noSpeech exactly when the joined text is empty and otherwise copied of the
joined text, the clipboard is untouched in the noSpeech case, and is written
with the joined text otherwise. -/
theorem stopOutcomeCharacterization (g : Globals) (st : DictState)
    (env : StopEnv) (p : String) (segs : List String)
    (hrec : st.recording = true) (herr : st.modelError = none)
    (hms : st.modelSet = true) (htf : st.tempFile = some p)
    (hfe : env.fileExists = true) (hfs : env.fileSize ≠ 0)
    (htr : env.transcribe = TranscribeResult.segs segs) :
    (stop_recording g st env).outcome =
      (if specJoinedText segs = "" then Outcome.noSpeech
        else Outcome.copied (specJoinedText segs))
    ∧ (specJoinedText segs = "" →
        wroteClipboard (stop_recording g st env).effects = false)
    ∧ (specJoinedText segs ≠ "" →
        Effect.clipboardWrite (specJoinedText segs)
          ∈ (stop_recording g st env).effects) := by
  refine ⟨?_, ?_, ?_⟩
  · simp only [specJoinedText]
    by_cases hT : pyJoin " " (segs.map fun s => pyStrip s) = "" <;>
      simp [stop_recording, stopTryBody, pyTruthy, hrec, herr, hms, htf,
        hfe, hfs, htr, hT]
  · intro hT
    simp only [specJoinedText] at hT
    cases hrp : st.recordProcess <;> cases hw : env.waitTimesOut <;>
      cases hn : g.notifications <;>
      simp [stop_recording, stopTryBody, pyTruthy, hrec, herr, hms, htf,
        hfe, hfs, htr, hT, wroteClipboard, reapEffects, notify, hrp, hw, hn]
  · intro hT
    simp only [specJoinedText] at hT
    simp only [specJoinedText]
    simp [stop_recording, stopTryBody, pyTruthy, hrec, herr, hms, htf, hfe,
      hfs, htr, hT]

/- ## C5: joining of transcription segments -/

/-- C5: the output text of the session is exactly what the spec describes — each
segment stripped of leading/trailing whitespace, joined in order with single
spaces — and when that text is non-empty it is what is written to the
clipboard. -/
theorem c5_joined_output (g : Globals) (st : DictState) (env : StopEnv)
    (p : String) (segs : List String)
    (hrec : st.recording = true) (herr : st.modelError = none)
    (hms : st.modelSet = true) (htf : st.tempFile = some p)
    (hfe : env.fileExists = true) (hfs : env.fileSize ≠ 0)
    (htr : env.transcribe = TranscribeResult.segs segs) :
    (stop_recording g st env).outcome =
      (if specJoinedText segs = "" then Outcome.noSpeech
        else Outcome.copied (specJoinedText segs))
    ∧ (specJoinedText segs ≠ "" →
        Effect.clipboardWrite (specJoinedText segs)
          ∈ (stop_recording g st env).effects) := by
  have h := stopOutcomeCharacterization g st env p segs hrec herr hms htf
    hfe hfs htr
  exact ⟨h.1, h.2.2⟩

/-- C5 witness: segments "hello" and "world" yield clipboard text exactly
"hello world". -/
theorem c5_joined_output_witness :
    (stop_recording gSample stRecording envOk).outcome
      = Outcome.copied "hello world"
    ∧ Effect.clipboardWrite "hello world"
        ∈ (stop_recording gSample stRecording envOk).effects := by
  have h := c5_joined_output gSample stRecording envOk "/tmp/rec.wav"
    ["hello", "world"] rfl rfl rfl rfl rfl (by decide) rfl
  exact ⟨h.1.trans (by decide), h.2 (by decide)⟩

/- ## C9: notification delivery failures are inert -/

/-- C9: the exit code of every notify-send invocation is discarded: notify
itself, start_recording and stop_recording return identical states, effects
and outcomes whatever each notification delivery returns, so a notification
delivery failure cannot change the result of a session and no notification
failure propagates out of the handlers (which are total functions). -/
theorem c9_notification_inert :
    (∀ (g : Globals) (x y : Int) (t m i : String) (tmo : Nat),
      notify g x t m i tmo = notify g y t m i tmo)
    ∧ (∀ (g : Globals) (st : DictState) (path : String) (pid : Nat)
        (x y : Int),
      start_recording g st path pid x = start_recording g st path pid y)
    ∧ (∀ (g : Globals) (st : DictState) (env : StopEnv) (x y : Int),
      stop_recording g st { env with notifySendExit := x }
        = stop_recording g st { env with notifySendExit := y }) := by
  refine ⟨fun g x y t m i tmo => rfl, fun g st path pid x y => rfl, ?_⟩
  intro g st env x y
  cases env
  rfl

/- ## String lemmas for the whitespace-joining corner case -/

theorem strMk_append (a b : List Char) :
    String.mk a ++ String.mk b = String.mk (a ++ b) := rfl

theorem empty_strAppend (t : String) : "" ++ t = t := by cases t; rfl

theorem spacesStr_succ (n : Nat) : " " ++ spacesStr n = spacesStr (n + 1) := by
  show String.mk [' '] ++ spacesStr n = spacesStr (n + 1)
  rw [spacesStr, spacesStr, strMk_append, List.replicate_succ]
  rfl

theorem spacesStr_ne_empty (n : Nat) : spacesStr (n + 1) ≠ "" := by
  intro h
  have hd := congrArg String.data h
  simp [spacesStr] at hd

theorem append_space_ne_empty (x y : String) : x ++ " " ++ y ≠ "" := by
  intro h
  have hl := congrArg String.length h
  rw [String.length_append, String.length_append] at hl
  have h1 : (" " : String).length = 1 := rfl
  have h0 : ("" : String).length = 0 := rfl
  rw [h1, h0] at hl
  omega

theorem pyJoin_replicate_empty (n : Nat) :
    pyJoin " " (List.replicate (n + 1) "") = spacesStr n := by
  induction n with
  | zero => rfl
  | succ k ih =>
    rw [List.replicate_succ, List.replicate_succ]
    show "" ++ " " ++ pyJoin " " ("" :: List.replicate k "") = spacesStr (k + 1)
    rw [empty_strAppend, ← List.replicate_succ, ih, spacesStr_succ]

theorem map_strip_replicate (segs : List String)
    (h : ∀ s ∈ segs, pyStrip s = "") :
    segs.map (fun s => pyStrip s) = List.replicate segs.length "" := by
  induction segs with
  | nil => rfl
  | cons a t ih =>
    rw [List.map_cons, h a (List.mem_cons_self a t), List.length_cons,
      List.replicate_succ, ih (fun s hs => h s (List.mem_cons_of_mem a hs))]

theorem specJoinedText_empty_iff (segs : List String) :
    specJoinedText segs = "" ↔
      segs = [] ∨ ∃ s, segs = [s] ∧ pyStrip s = "" := by
  match segs with
  | [] => simp [specJoinedText, pyJoin]
  | [s] => simp [specJoinedText, pyJoin]
  | a :: b :: t =>
    constructor
    · intro h
      have h2 : pyStrip a ++ " "
          ++ pyJoin " " (pyStrip b :: t.map fun s => pyStrip s) = "" := h
      exact absurd h2 (append_space_ne_empty _ _)
    · intro h
      rcases h with h | ⟨s, hs, _⟩
      · exact absurd h (by simp)
      · exact absurd hs (by simp)

/- ## C10: the empty-text check is applied to the joined string -/

/-- C10: "no speech detected" is reported exactly when the joined text is
empty, which happens exactly for zero segments or one segment stripping to
empty; two or more segments all stripping to empty join to a non-empty
string of space characters, which the session copies to the clipboard and
reports as a success. -/
theorem c10_empty_check_after_join :
    (∀ (g : Globals) (st : DictState) (env : StopEnv) (p : String)
        (segs : List String),
      st.recording = true → st.modelError = none → st.modelSet = true →
      st.tempFile = some p → env.fileExists = true → env.fileSize ≠ 0 →
      env.transcribe = TranscribeResult.segs segs →
      ((stop_recording g st env).outcome = Outcome.noSpeech ↔
        (segs = [] ∨ ∃ s, segs = [s] ∧ pyStrip s = "")))
    ∧ (∀ segs : List String, 2 ≤ segs.length →
        (∀ s ∈ segs, pyStrip s = "") →
        specJoinedText segs = spacesStr (segs.length - 1)
        ∧ specJoinedText segs ≠ "")
    ∧ (∀ (g : Globals) (st : DictState) (env : StopEnv) (p : String)
        (segs : List String),
      st.recording = true → st.modelError = none → st.modelSet = true →
      st.tempFile = some p → env.fileExists = true → env.fileSize ≠ 0 →
      env.transcribe = TranscribeResult.segs segs →
      2 ≤ segs.length → (∀ s ∈ segs, pyStrip s = "") →
      (stop_recording g st env).outcome
        = Outcome.copied (spacesStr (segs.length - 1))
      ∧ Effect.clipboardWrite (spacesStr (segs.length - 1))
          ∈ (stop_recording g st env).effects) := by
  have key : ∀ segs : List String, 2 ≤ segs.length →
      (∀ s ∈ segs, pyStrip s = "") →
      specJoinedText segs = spacesStr (segs.length - 1)
      ∧ specJoinedText segs ≠ "" := by
    intro segs h2 hall
    have hm := map_strip_replicate segs hall
    obtain ⟨k, hk⟩ : ∃ k, segs.length = k + 2 := ⟨segs.length - 2, by omega⟩
    have h1 : specJoinedText segs = spacesStr (k + 1) := by
      rw [specJoinedText, hm, hk]
      exact pyJoin_replicate_empty (k + 1)
    refine ⟨?_, ?_⟩
    · rw [h1, hk]
      congr 1
    · rw [h1]
      exact spacesStr_ne_empty k
  refine ⟨?_, key, ?_⟩
  · intro g st env p segs hrec herr hms htf hfe hfs htr
    have h := stopOutcomeCharacterization g st env p segs hrec herr hms htf
      hfe hfs htr
    rw [h.1]
    by_cases hT : specJoinedText segs = ""
    · rw [if_pos hT]
      exact iff_of_true rfl ((specJoinedText_empty_iff segs).mp hT)
    · rw [if_neg hT]
      constructor
      · intro hx
        exact absurd hx (by simp)
      · intro hr
        exact absurd ((specJoinedText_empty_iff segs).mpr hr) hT
  · intro g st env p segs hrec herr hms htf hfe hfs htr h2 hall
    have hk := key segs h2 hall
    have h := stopOutcomeCharacterization g st env p segs hrec herr hms htf
      hfe hfs htr
    constructor
    · rw [h.1, if_neg hk.2, hk.1]
    · have hm := h.2.2 hk.2
      rw [hk.1] at hm
      exact hm

/-- C10 witness: two segments both stripping to empty yield the single-space
clipboard text and a success outcome, and zero segments yield noSpeech. -/
theorem c10_empty_check_after_join_witness :
    (stop_recording gSample stRecording envWs).outcome = Outcome.copied " "
    ∧ Effect.clipboardWrite " "
        ∈ (stop_recording gSample stRecording envWs).effects
    ∧ (stop_recording gSample stRecording envNoSegs).outcome
        = Outcome.noSpeech := by
  have h3 := c10_empty_check_after_join.2.2 gSample stRecording envWs
    "/tmp/rec.wav" ["", " "] rfl rfl rfl rfl rfl (by decide) rfl (by decide)
    (by decide)
  have h1 := c10_empty_check_after_join.1 gSample stRecording envNoSegs
    "/tmp/rec.wav" [] rfl rfl rfl rfl rfl (by decide) rfl
  exact ⟨h3.1.trans (by decide), h3.2, h1.mpr (Or.inl rfl)⟩

/- ## C1: the per-pair session cycle under sequential delivery -/

/-- A press delivered while Idle with the model not failed starts a session:
the Recording stage is entered and the machine is recording afterwards. -/
theorem press_advances (g : Globals) (st : DictState) (path : String)
    (pid : Nat) (hrec : st.recording = false) (herr : st.modelError = none) :
    ∃ st', monitor_step g st (DEvent.press path pid)
        = (st', [SessState.Recording])
      ∧ st'.recording = true ∧ st'.modelError = none := by
  obtain ⟨rec, rp, tf, ms, me⟩ := st
  obtain rfl : rec = false := hrec
  obtain rfl : me = none := herr
  by_cases hb : g.builderPresent
  · exact ⟨⟨true, some pid, some path, ms, none⟩,
      by simp [monitor_step, start_recording, pyTruthy, hb], rfl, rfl⟩
  · exact ⟨⟨true, rp, some path, ms, none⟩,
      by simp [monitor_step, start_recording, pyTruthy, hb], rfl, rfl⟩

/-- A release delivered while Recording with the model not failed runs the
session to completion: Stopping, Transcribing, Done are entered in order and
the machine returns to Idle, whatever the environment did. -/
theorem release_advances (g : Globals) (st : DictState) (env : StopEnv)
    (hrec : st.recording = true) (herr : st.modelError = none) :
    ∃ st', monitor_step g st (DEvent.release env)
        = (st', [SessState.Stopping, SessState.Transcribing, SessState.Done,
            SessState.Idle])
      ∧ st'.recording = false ∧ st'.modelError = none := by
  obtain ⟨rec, rp, tf, ms, me⟩ := st
  obtain rfl : rec = true := hrec
  obtain rfl : me = none := herr
  exact ⟨⟨false, none, tf, ms, none⟩,
    by simp [monitor_step, stop_recording, pyTruthy], rfl, rfl⟩

/-- C1: starting from Idle with the model not failed, every sequence of
press/release pairs drives the session through
Idle→Recording→Stopping→Transcribing→Done→Idle exactly once per pair
(whatever the environment of each session does); a press while already Recording
is a no-op that changes no state, and a release while Idle is a no-op that
changes no state. -/
theorem c1_press_release_cycle :
    (∀ (g : Globals) (st : DictState) (ps : List (String × Nat × StopEnv)),
      st.recording = false → st.modelError = none →
      (runEvents g st (pairEvents ps)).2 = cycles ps.length)
    ∧ (∀ (g : Globals) (st : DictState) (path : String) (pid : Nat),
      st.recording = true →
      monitor_step g st (DEvent.press path pid) = (st, []))
    ∧ (∀ (g : Globals) (st : DictState) (env : StopEnv),
      st.recording = false →
      monitor_step g st (DEvent.release env) = (st, [])) := by
  refine ⟨?_, ?_, ?_⟩
  · intro g st ps
    induction ps generalizing st with
    | nil => intro _ _; rfl
    | cons head rest ih =>
      intro hrec herr
      obtain ⟨path, pid, env⟩ := head
      obtain ⟨st1, hp, h1r, h1e⟩ := press_advances g st path pid hrec herr
      obtain ⟨st2, hq, h2r, h2e⟩ := release_advances g st1 env h1r h1e
      have hrest := ih st2 h2r h2e
      simp [pairEvents, runEvents, hp, hq, hrest, cycles, sessionCycle]
  · intro g st path pid hrec
    simp [monitor_step, hrec]
  · intro g st env hrec
    simp [monitor_step, hrec]

/-- C1 witness: two pairs (the second with a raising transcription) produce
two full cycles; a press while Recording and a release while Idle change
nothing. -/
theorem c1_press_release_cycle_witness :
    (runEvents gSample stIdle
        (pairEvents [("/tmp/a.wav", 3, envOk), ("/tmp/b.wav", 4, envRaise)])).2
      = cycles 2
    ∧ monitor_step gSample stRecording (DEvent.press "/tmp/c.wav" 5)
        = (stRecording, [])
    ∧ monitor_step gSample stIdle (DEvent.release envOk) = (stIdle, []) :=
  ⟨c1_press_release_cycle.1 gSample stIdle _ rfl rfl,
    c1_press_release_cycle.2.1 gSample stRecording "/tmp/c.wav" 5 rfl,
    c1_press_release_cycle.2.2 gSample stIdle envOk rfl⟩

/- ## C3: single active session -/

theorem set_len_append {α : Type} (l : List α) (a b : α) :
    (l ++ [a]).set l.length b = l ++ [b] := by
  induction l with
  | nil => rfl
  | cons h t ih =>
    show h :: List.set (t ++ [a]) t.length b = h :: (t ++ [b])
    rw [ih]

theorem pressSeq_inv (c : Core) (h : SeqInv c) : SeqInv (pressSeq c) := by
  by_cases hg : pressCheckOp c
  · simpa [pressSeq, hg] using h
  · have hgf : pressCheckOp c = false := by
      cases hx : pressCheckOp c
      · rfl
      · exact absurd hx hg
    have hrec : c.recording = false := by
      have := Bool.or_eq_false_iff.mp hgf
      exact this.1
    refine ⟨?_, ?_⟩
    · intro hfalse
      rw [pressSeq, if_neg hg] at hfalse
      simp [pressCommitOp] at hfalse
    · intro _
      refine ⟨c.sessions, ?_, ?_, h.1 hrec⟩
      · simp [pressSeq, hg, pressCommitOp]
      · simp [pressSeq, hg, pressCommitOp]

theorem releaseSeq_inv (c : Core) (h : SeqInv c) : SeqInv (releaseSeq c) := by
  by_cases hr : c.recording
  · obtain ⟨pre, hs, hc, hpre⟩ := h.2 hr
    have hfin : releaseSeq c =
        { c with recording := false, sessions := pre ++ [SessState.Done] } := by
      simp [releaseSeq, hr, relMark, hc, hs, set_len_append]
    rw [hfin]
    refine ⟨?_, ?_⟩
    · intro _ s hsm
      rcases List.mem_append.mp hsm with h1 | h1
      · exact hpre s h1
      · simp at h1
        subst h1
        rfl
    · intro habs
      simp at habs
  · simpa [releaseSeq, hr] using h

theorem runSeq_inv (evs : List MEvent) (c : Core) (h : SeqInv c) :
    SeqInv (runSeq c evs) := by
  induction evs generalizing c with
  | nil => exact h
  | cons e rest ih =>
    cases e
    · exact ih _ (pressSeq_inv c h)
    · exact ih _ (releaseSeq_inv c h)

theorem seqInv_count (c : Core) (h : SeqInv c) : countNonIdle c.sessions ≤ 1 := by
  by_cases hr : c.recording
  · obtain ⟨pre, hs, hc, hpre⟩ := h.2 hr
    have hz : pre.countP (fun s => isNonIdleB s) = 0 :=
      List.countP_eq_zero.mpr (by intro a ha; simp [hpre a ha])
    rw [countNonIdle, hs, List.countP_append, hz]
    decide
  · have hrf : c.recording = false := by
      cases hx : c.recording
      · rfl
      · exact absurd hx hr
    have hall := h.1 hrf
    have hz : c.sessions.countP (fun s => isNonIdleB s) = 0 :=
      List.countP_eq_zero.mpr (by intro a ha; simp [hall a ha])
    rw [countNonIdle, hz]
    omega

/-- C3 counterexample. Under interleaved delivery from two keyboards the
claimed invariant fails: a press completes, a release handler clears
`self.recording` and reaches the transcription call, and a second press then
passes the Idle guard (the flag is already false) and spawns a new capture —
two sessions are simultaneously non-Idle (one Transcribing, one Recording).
Every step of this schedule is a behaviour of the Python code, whose guard
is a bare read of `self.recording` with no lock. -/
theorem c3_counterexample :
    countNonIdle (runSched raceInit raceSched).core.sessions = 2 := by decide

/-- C3 (amended): the single-active-session invariant holds under
sequential delivery, where each press/release handler runs to completion
before the next event is handled: every reachable state has at most one
session in {Recording, Stopping, Transcribing}. Under concurrent delivery
the invariant fails (see the counterexample). -/
theorem c3_sequential_single_session (evs : List MEvent) :
    countNonIdle (runSeq initCore evs).sessions ≤ 1 := by
  apply seqInv_count
  apply runSeq_inv
  refine ⟨?_, ?_⟩
  · intro _ s hs
    simp [initCore] at hs
  · intro habs
    simp [initCore] at habs

/- ## C8: audio-backend override resolution -/

/-- C8 counterexample. The claim says any configured override whose
executable resolves on PATH is committed, and any that does not resolve
produces a warning before auto-detection. With the override "sox" and every
executable resolvable, the code commits "parecord" (not "sox") and prints no
warning: overrides outside backend_map are ignored silently. -/
theorem c8_counterexample :
    (detect_audio_backend "sox" (fun _ => true)).backend ≠ some "sox"
    ∧ (detect_audio_backend "sox" (fun _ => true)).warnedFallback = false := by
  refine ⟨?_, rfl⟩
  decide

/-- C8 (amended): an override naming one of the three known backends
(parecord, pw-record, arecord) is committed when its executable resolves,
and otherwise produces the warning and falls back to auto-detection; any
other override value falls back to auto-detection silently, with no warning;
auto-detection commits to the first of parecord, pw-record, arecord that
resolves, and returns none exactly when none of them resolves. -/
theorem c8_backend_selection (resolves : String → Bool) :
    (∀ cfg, cfg ∈ backendNames →
      (resolves cfg = true →
        detect_audio_backend cfg resolves = ⟨some cfg, false⟩)
      ∧ (resolves cfg = false →
        detect_audio_backend cfg resolves
          = ⟨autoDetectBackend resolves, true⟩))
    ∧ (∀ cfg, cfg ∉ backendNames → cfg ≠ "auto" →
      detect_audio_backend cfg resolves
        = ⟨autoDetectBackend resolves, false⟩)
    ∧ detect_audio_backend "auto" resolves
        = ⟨autoDetectBackend resolves, false⟩
    ∧ (resolves "parecord" = true →
        autoDetectBackend resolves = some "parecord")
    ∧ (resolves "parecord" = false → resolves "pw-record" = true →
        autoDetectBackend resolves = some "pw-record")
    ∧ (resolves "parecord" = false → resolves "pw-record" = false →
        resolves "arecord" = true →
        autoDetectBackend resolves = some "arecord")
    ∧ (resolves "parecord" = false → resolves "pw-record" = false →
        resolves "arecord" = false → autoDetectBackend resolves = none) := by
  refine ⟨?_, ?_, ?_, ?_, ?_, ?_, ?_⟩
  · intro cfg hmem
    have hne : cfg ≠ "auto" := by
      intro he
      subst he
      exact absurd hmem (by decide)
    constructor
    · intro hres
      simp [detect_audio_backend, hne, hmem, hres]
    · intro hres
      simp [detect_audio_backend, hne, hmem, hres]
  · intro cfg hnmem hne
    simp [detect_audio_backend, hne, hnmem]
  · simp [detect_audio_backend]
  · intro h1
    simp [autoDetectBackend, h1]
  · intro h1 h2
    simp [autoDetectBackend, h1, h2]
  · intro h1 h2 h3
    simp [autoDetectBackend, h1, h2, h3]
  · intro h1 h2 h3
    simp [autoDetectBackend, h1, h2, h3]

/-- C8 witness: a known but unresolvable override warns and falls back to
the priority order; an unknown override falls back silently. -/
theorem c8_backend_selection_witness :
    detect_audio_backend "pw-record" (fun s => s == "arecord")
      = ⟨some "arecord", true⟩
    ∧ detect_audio_backend "sox" (fun s => s == "sox") = ⟨none, false⟩ := by
  have h1 := (c8_backend_selection (fun s => s == "arecord")).1 "pw-record"
    (by decide)
  have h2 := (c8_backend_selection (fun s => s == "sox")).2.1 "sox"
    (by decide) (by decide)
  exact ⟨(h1.2 rfl).trans (by decide), h2.trans (by decide)⟩

end SoupaWhisper
